import Mathlib

/-!
# Verification of the Stone-Soup information-filter predictor excerpt

Shallow embedding of `src/stonesoup/predictor/information.py` (class
`InfoFilterPredictor`) and `src/stonesoup/types/particle.py` (classes
`Particle` and `MultiModelParticle`).

Modelling conventions:
* Real-valued numpy arrays are modelled as matrices over `ℚ` (exact
  arithmetic); an `n`-dimensional state vector is an `n × 1` matrix, as in
  numpy.
* `numpy.linalg.inv` raises `LinAlgError` exactly on singular input and
  otherwise returns the exact inverse; it is modelled by `npinv`, which
  returns `none` exactly when the determinant vanishes and otherwise the
  adjugate-based inverse.  `laplaceDet`/`cofAdjugate` are executable
  definitions proved equal to Mathlib's `Matrix.det`/`Matrix.adjugate`.
* Python exceptions are modelled by `Except`; the error value records the
  program point that raised (which inversion failed, or the shape check
  that numpy performs on `@`).
* `datetime` timestamps are modelled as `Option ℤ` (a `None` timestamp is
  `none`); time intervals are integer differences, which is all the
  predictor itself does with them.
* Mutable Python objects are handled by explicit state passing: an
  embedded call returns the constructed value together with the post-call
  state of the caller-supplied arguments.
-/

open Matrix

/-- Square rational matrices, modelling square numpy arrays of floats. -/
abbrev Mat (n : ℕ) : Type := Matrix (Fin n) (Fin n) ℚ

/-- Column vectors (`n × 1` numpy arrays). -/
abbrev Vec (n : ℕ) : Type := Matrix (Fin n) (Fin 1) ℚ

/-- Executable determinant by Laplace expansion along column 0; proved equal
to Mathlib's `Matrix.det` in `laplaceDet_eq_det`. -/
def laplaceDet : (n : ℕ) → Mat n → ℚ
  | 0, _ => 1
  | n + 1, A =>
      ∑ i : Fin (n + 1), (-1) ^ (i : ℕ) * A i 0 * laplaceDet n (A.submatrix i.succAbove Fin.succ)

/-- Executable adjugate via cofactors; proved equal to Mathlib's
`Matrix.adjugate` in `cofAdjugate_eq_adjugate`. -/
def cofAdjugate : (n : ℕ) → Mat n → Mat n
  | 0, _ => 1
  | n + 1, A =>
      Matrix.of fun i j =>
        (-1) ^ ((j : ℕ) + (i : ℕ)) * laplaceDet n (A.submatrix j.succAbove i.succAbove)

theorem laplaceDet_eq_det : ∀ (n : ℕ) (A : Mat n), laplaceDet n A = A.det := by
  intro n
  induction n with
  | zero => intro A; simp [laplaceDet, Matrix.det_fin_zero]
  | succ n ih =>
      intro A
      rw [laplaceDet, Matrix.det_succ_column_zero]
      exact Finset.sum_congr rfl fun i _ => by rw [ih]

theorem cofAdjugate_eq_adjugate : ∀ (n : ℕ) (A : Mat n), cofAdjugate n A = A.adjugate := by
  intro n
  cases n with
  | zero =>
      intro A
      rw [cofAdjugate, Matrix.adjugate_subsingleton]
  | succ n =>
      intro A
      ext i j
      rw [cofAdjugate, Matrix.of_apply, Matrix.adjugate_fin_succ_eq_det_submatrix,
        laplaceDet_eq_det]

/-- The value `numpy.linalg.inv` returns on nonsingular input (for singular
input `npinv` below returns `none` instead and this value is irrelevant). -/
def npinvTotal {n : ℕ} (A : Mat n) : Mat n :=
  (laplaceDet n A)⁻¹ • cofAdjugate n A

/-- Model of `numpy.linalg.inv`: `none` (a raised `LinAlgError`) exactly on
singular matrices, otherwise the exact inverse. -/
def npinv {n : ℕ} (A : Mat n) : Option (Mat n) :=
  if laplaceDet n A = 0 then none else some (npinvTotal A)

/-- Sanity anchor: `npinv` is the true matrix inverse guarded by the true
singularity test. -/
theorem npinv_eq_inv {n : ℕ} (A : Mat n) :
    npinv A = if A.det = 0 then none else some A⁻¹ := by
  unfold npinv npinvTotal
  rw [laplaceDet_eq_det, cofAdjugate_eq_adjugate]
  split_ifs with h
  · rfl
  · rw [Matrix.inv_def, Ring.inverse_eq_inv']

theorem npinv_eq_none_iff {n : ℕ} (A : Mat n) : npinv A = none ↔ laplaceDet n A = 0 := by
  unfold npinv
  split_ifs with h <;> simp [h]

theorem npinv_eq_some_iff {n : ℕ} (A : Mat n) {B : Mat n} :
    npinv A = some B ↔ laplaceDet n A ≠ 0 ∧ npinvTotal A = B := by
  unfold npinv
  split_ifs with h <;> simp [h]

theorem laplaceDet_transpose {n : ℕ} (A : Mat n) : laplaceDet n Aᵀ = laplaceDet n A := by
  rw [laplaceDet_eq_det, laplaceDet_eq_det, Matrix.det_transpose]

/-- The all-ones matrix, modelling `np.ones((n, n))` (information.py line 229). -/
def npones (n : ℕ) : Mat n := Matrix.of fun _ _ => 1

/-- Embeds `InfoFilterPredictor._noise_transition_matrix` (information.py
lines 64-78): `np.identity(self.transition_model.ndim_state)`. -/
def noiseTransitionMatrix (n : ℕ) : Mat n := 1

/-- The linear Gaussian transition model interface as `predict` consumes it
(information.py lines 189-192): `matrix` and `covar` queried at the elapsed
`time_interval` (`none` models an undefined interval; the extra `prior`
kwarg the source passes to `matrix` is ignored by a linear model).  Its
declared dimensionality `ndim_state` (= `ndim`) is the type index `n`. -/
structure TransitionModel (n : ℕ) where
  matrix : Option ℤ → Mat n
  covar : Option ℤ → Mat n

/-- Modelled from the spec: `LinearControlModel`
(stonesoup/models/control/linear.py is not under src/).  Per spec sections 3
and 6 it supplies a control matrix `B` (`matrix()`), a control vector, a
control input vector `control_input()` (the product of the two), and a
control-noise covariance `control_noise`. -/
structure LinearControlModel (n : ℕ) where
  matrix : Mat n
  control_vector : Vec n
  control_noise : Mat n

/-- Modelled from the spec: `control_input()` of a linear control model is
the control matrix applied to the control vector (the control input vector
of spec section 6). -/
def LinearControlModel.control_input {n : ℕ} (m : LinearControlModel n) : Vec n :=
  m.matrix * m.control_vector

/-- The zero-effect control model `InfoFilterPredictor.__init__` synthesizes
(information.py lines 57-62): zero control vector (`np.zeros([ndims, 1])`),
zero control matrix and zero control-noise covariance
(`np.zeros([ndims, ndims])`), sized to `transition_model.ndim_state`. -/
def zeroControlModel (n : ℕ) : LinearControlModel n :=
  { matrix := 0, control_vector := 0, control_noise := 0 }

/-- The prior estimate accepted by `predict`: either an information-form
state (`InformationStateUpdate` / `InformationStatePrediction` /
`InformationState`, all carrying `state_vector` and `info_matrix`) or any
other (covariance-form) state carrying `state_vector` and `covar`
(information.py lines 199-216 branch on exactly this distinction).
Timestamps are `Option ℤ`. -/
inductive Prior (n : ℕ) where
  | information (state_vector : Vec n) (info_matrix : Mat n) (timestamp : Option ℤ)
  | gaussian (state_vector : Vec n) (covar : Mat n) (timestamp : Option ℤ)
deriving DecidableEq

/-- The prior's state vector (`prior.state_vector`, information.py line 227). -/
def priorStateVector {n : ℕ} : Prior n → Vec n
  | .information sv _ _ => sv
  | .gaussian sv _ _ => sv

/-- The second-moment matrix `Y` selected by the `isinstance` chain of
information.py lines 213-216: `info_matrix` for the three information-form
types, otherwise `covar` used directly (no inversion). -/
def priorY {n : ℕ} : Prior n → Mat n
  | .information _ Y _ => Y
  | .gaussian _ P _ => P

/-- The prior's timestamp. -/
def priorTimestamp {n : ℕ} : Prior n → Option ℤ
  | .information _ _ ts => ts
  | .gaussian _ _ ts => ts

/-- The predictor object after `__init__` ran: it holds the transition model
and a control model (never `None`, see `mkInfoFilterPredictor`). -/
structure InfoFilterPredictor (n : ℕ) where
  transition_model : TransitionModel n
  control_model : LinearControlModel n

/-- Embeds `InfoFilterPredictor.__init__` (information.py lines 52-62): if no
control model is supplied, a zero-effect `LinearControlModel` sized to
`transition_model.ndim_state` is synthesized and stored. -/
def mkInfoFilterPredictor {n : ℕ} (tm : TransitionModel n)
    (cm : Option (LinearControlModel n)) : InfoFilterPredictor n :=
  { transition_model := tm, control_model := cm.getD (zeroControlModel n) }

/-- Errors `predict` can raise, identified by the program point that raised:
`numpy.linalg.inv` raising `LinAlgError` at information.py line 218 (`F`),
line 220 (`Q`) or line 222 (`Sigma`), or numpy's shape check on `@` for a
prior of mismatched dimension (the error the spec's taxonomy calls
`IncompatibleDimensionsError`). -/
inductive PredictError where
  | singular_F
  | singular_Q
  | singular_Sigma
  | incompatible_dimensions
deriving DecidableEq

/-- The result type `InformationStatePrediction`.  Modelled from the spec:
stonesoup/types/prediction.py is not under src/; per spec section 3 an
information-form estimate carries `info_vector`, `info_matrix` and a
timestamp, and line 232 constructs it as
`InformationStatePrediction(y_pred, Y_pred, timestamp=timestamp)`. -/
structure InformationStatePrediction (n : ℕ) where
  info_vector : Vec n
  info_matrix : Mat n
  timestamp : Option ℤ
deriving DecidableEq

/-- Embeds `InfoFilterPredictor._predict_over_interval` (information.py lines
130-154): `None` if either timestamp is undefined, else their difference. -/
def predictOverInterval {n : ℕ} (prior : Prior n) (timestamp : Option ℤ) : Option ℤ :=
  match timestamp, priorTimestamp prior with
  | some t, some t0 => some (t - t0)
  | _, _ => none

/-- The numeric body of `predict` (information.py lines 208-232) as a
function of the matrices queried from the models.  Notes kept from the
source: `x_pred` (lines 182-184) and `p_pred` (lines 199-206) are computed
and then never used, and `print(prior)` (line 197) has no effect on the
result, so they are omitted here; they perform no inversion.  Line 218
computes `inv(transition_matrix.T)` and line 229 computes the identical
`inv(F.transpose())` again; both occurrences are represented by `FtInv`.
Line 229 multiplies by `np.ones((ndims, ndims))` (`npones`), not by an
identity matrix. -/
def predictCore {n : ℕ} (F Q Y : Mat n) (y u : Vec n) (ts : Option ℤ) :
    Except PredictError (InformationStatePrediction n) :=
  let G := noiseTransitionMatrix n
  match npinv Fᵀ with
  | none => .error .singular_F
  | some FtInv =>
    match npinv F with
    | none => .error .singular_F
    | some Finv =>
      let M := FtInv * Y * Finv
      match npinv Q with
      | none => .error .singular_Q
      | some Qinv =>
        let Sigma := G * M * G + Qinv
        match npinv Sigma with
        | none => .error .singular_Sigma
        | some SigmaInv =>
          let Omega := M * G * SigmaInv
          let Y_pred := M - Omega * Sigma * Omegaᵀ
          let y_pred := (npones n - Omega * Gᵀ) * FtInv * y + Y * u
          .ok { info_vector := y_pred, info_matrix := Y_pred, timestamp := ts }

/-- Embeds `InfoFilterPredictor.predict` (information.py lines 156-232) for a
prior whose dimension matches the transition model's: query `F` and `Q` at
the elapsed interval, select `Y` per the prior's type, and run the
information-filter recursion of `predictCore`. -/
def predict {n : ℕ} (p : InfoFilterPredictor n) (prior : Prior n)
    (timestamp : Option ℤ) : Except PredictError (InformationStatePrediction n) :=
  let interval := predictOverInterval prior timestamp
  predictCore (p.transition_model.matrix interval) (p.transition_model.covar interval)
    (priorY prior) (priorStateVector prior) p.control_model.control_input timestamp

/-- Embeds the call `predict(prior)` for a prior of arbitrary dimension `m`:
the source contains no dimension guard, but the first matrix product
touching the prior (`transition_matrix @ prior.state_vector`, line 182)
makes numpy check `m = n` and raise on mismatch; `h ▸ prior` transports the
prior along the successful check. -/
def predictAny {m n : ℕ} (p : InfoFilterPredictor n) (prior : Prior m)
    (ts : Option ℤ) : Except PredictError (InformationStatePrediction n) :=
  if h : m = n then predict p (h ▸ prior) ts else .error .incompatible_dimensions

/-- The information-filter prediction recursion written from the words of
spec section 4.1 step 4 (for comparison with the code embedding):
`M = inverse(transpose(F)) * Y * inverse(F)`,
`Sigma = G * M * G + inverse(Q)`, `Omega = M * G * inverse(Sigma)`,
`Y_pred = M - Omega * Sigma * transpose(Omega)`, with `G` the identity
matrix and `inverse` failing on singular input. -/
def specRecursion {n : ℕ} (F Q Y : Mat n) : Option (Mat n) :=
  let G := (1 : Mat n)
  match npinv Fᵀ with
  | none => none
  | some FtInv =>
    match npinv F with
    | none => none
    | some Finv =>
      let M := FtInv * Y * Finv
      match npinv Q with
      | none => none
      | some Qinv =>
        let Sigma := G * M * G + Qinv
        match npinv Sigma with
        | none => none
        | some SigmaInv =>
          let Omega := M * G * SigmaInv
          some (M - Omega * Sigma * Omegaᵀ)

theorem predictCore_info_matrix {n : ℕ} (F Q Y : Mat n) (y u : Vec n) (ts : Option ℤ) :
    (predictCore F Q Y y u ts).toOption.map InformationStatePrediction.info_matrix =
      specRecursion F Q Y := by
  simp only [predictCore, specRecursion, noiseTransitionMatrix]
  repeat' split
  all_goals rfl

/-- C2: for every prior, the predicted information matrix returned by
`predict` is the one computed by the recursion `M = inverse(transpose(F)) *
Y * inverse(F)`, `Sigma = G * M * G + inverse(Q)`, `Omega = M * G *
inverse(Sigma)`, `Y_pred = M - Omega * Sigma * transpose(Omega)` with `G`
the identity matrix, and the returned estimate carries this `Y_pred`. -/
theorem infoFilter_C2_recursion {n : ℕ} (p : InfoFilterPredictor n) (prior : Prior n)
    (ts : Option ℤ) :
    (predict p prior ts).toOption.map InformationStatePrediction.info_matrix =
      specRecursion (p.transition_model.matrix (predictOverInterval prior ts))
        (p.transition_model.covar (predictOverInterval prior ts)) (priorY prior) :=
  predictCore_info_matrix _ _ _ _ _ _

/-- C3: the second-moment matrix `Y` used by the recursion is `info_matrix`
for an information-form prior and the covariance used directly (no
inversion) for every other prior; consequently an information-form prior
and a covariance-form prior carrying the same matrix predict identically. -/
theorem infoFilter_C3_dual_prior {n : ℕ} (p : InfoFilterPredictor n) (sv : Vec n)
    (Y : Mat n) (ts t : Option ℤ) :
    priorY (Prior.information sv Y ts) = Y ∧
    priorY (Prior.gaussian sv Y ts) = Y ∧
    predict p (Prior.information sv Y ts) t = predict p (Prior.gaussian sv Y ts) t :=
  ⟨rfl, rfl, rfl⟩

/-- C4: a predictor constructed with no control model stores a synthesized
zero-effect control model (zero control matrix, zero control vector hence
zero control input, zero control-noise covariance) of the transition
model's dimensionality, and predicts exactly as a predictor constructed
with an explicit zero-effect control model of that dimension. -/
theorem infoFilter_C4_no_control {n : ℕ} (tm : TransitionModel n) (prior : Prior n)
    (ts : Option ℤ) :
    (mkInfoFilterPredictor tm none).control_model = zeroControlModel n ∧
    (zeroControlModel n).matrix = 0 ∧
    (zeroControlModel n).control_vector = 0 ∧
    (zeroControlModel n).control_noise = 0 ∧
    (zeroControlModel n).control_input = 0 ∧
    predict (mkInfoFilterPredictor tm none) prior ts =
      predict (mkInfoFilterPredictor tm (some (zeroControlModel n))) prior ts := by
  refine ⟨rfl, rfl, rfl, rfl, ?_, rfl⟩
  simp [LinearControlModel.control_input, zeroControlModel]

/-- The effect of the call `predictor.predict(prior, timestamp)` on the
caller-visible objects, in state-passing style: the body (information.py
lines 156-232) assigns no attribute of `self`, of its models or of `prior`
(it only reads them and builds fresh local arrays with `@`, `+`, `-`), so
the post-call predictor and prior equal the pre-call ones and the result is
a freshly constructed `InformationStatePrediction`. -/
def predictEffect {n : ℕ} (p : InfoFilterPredictor n) (prior : Prior n) (ts : Option ℤ) :
    Except PredictError (InformationStatePrediction n) × InfoFilterPredictor n × Prior n :=
  (predict p prior ts, p, prior)

/-- C5: a call to `predict` leaves the prior and the predictor (with its
transition and control models) unchanged, and any returned estimate is a new
information-form object whose timestamp is the target timestamp passed in. -/
theorem infoFilter_C5_frame {n : ℕ} (p : InfoFilterPredictor n) (prior : Prior n)
    (ts : Option ℤ) :
    predictEffect p prior ts = (predict p prior ts, p, prior) ∧
    (predict p prior ts).map InformationStatePrediction.timestamp =
      (predict p prior ts).map fun _ => ts := by
  refine ⟨rfl, ?_⟩
  simp only [predict, predictCore]
  repeat' split
  all_goals rfl

/-- The construction failure the spec's taxonomy calls
`ConfigurationError`. -/
inductive ConfigurationError where
  | missing_transition_model
deriving DecidableEq

/-- Modelled from the spec: the `Property`/`Base` construction machinery
(stonesoup/base.py is not under src/) rejects construction when the
required `transition_model` property is missing (spec section 4.1;
the class docstring documents the raise at information.py lines 35-38). -/
def mkInfoFilterPredictorChecked {n : ℕ} (tm : Option (TransitionModel n))
    (cm : Option (LinearControlModel n)) :
    Except ConfigurationError (InfoFilterPredictor n) :=
  match tm with
  | none => .error .missing_transition_model
  | some t => .ok (mkInfoFilterPredictor t cm)

/-- C9: constructing the predictor with no transition model supplied fails
with a configuration error. -/
theorem infoFilter_C9_missing_transition_model {n : ℕ}
    (cm : Option (LinearControlModel n)) :
    mkInfoFilterPredictorChecked (n := n) none cm =
      .error ConfigurationError.missing_transition_model :=
  rfl

/-- The memo table of the `@lru_cache()` on `predict` (information.py line
156), restricted to one predictor (`self` is part of the real key): maps
argument keys `(prior, timestamp)` to previously returned estimates.  Only
successful returns are cached (`lru_cache` stores nothing when the call
raises); the model is unbounded, per spec section 5. -/
abbrev PredictCache (n : ℕ) := List ((Prior n × Option ℤ) × InformationStatePrediction n)

/-- Key lookup in the memo table. -/
def cacheLookup {n : ℕ} : PredictCache n → Prior n × Option ℤ → Option (InformationStatePrediction n)
  | [], _ => none
  | (k', v) :: rest, k => if k = k' then some v else cacheLookup rest k

/-- Embeds the `lru_cache`-wrapped `predict` call: on a key hit the cached
estimate is returned and the table is untouched; on a miss the body runs,
and a successful result is stored under the key. -/
def predictCached {n : ℕ} (p : InfoFilterPredictor n) (cache : PredictCache n)
    (prior : Prior n) (ts : Option ℤ) :
    Except PredictError (InformationStatePrediction n) × PredictCache n :=
  match cacheLookup cache (prior, ts) with
  | some est => (.ok est, cache)
  | none =>
    match predict p prior ts with
    | .ok est => (.ok est, ((prior, ts), est) :: cache)
    | .error e => (.error e, cache)

theorem cacheLookup_cons_self {n : ℕ} (c : PredictCache n) (k : Prior n × Option ℤ)
    (v : InformationStatePrediction n) : cacheLookup ((k, v) :: c) k = some v := by
  simp [cacheLookup]

/-- C6: `predict` is deterministic and memoized — repeating a call with the
identical `(prior, timestamp)` key returns the previously computed result
and leaves the memo table exactly as the first call left it (the second
call is served from the cache, not recomputed). -/
theorem infoFilter_C6_memoized {n : ℕ} (p : InfoFilterPredictor n) (cache : PredictCache n)
    (prior : Prior n) (ts : Option ℤ) :
    predictCached p (predictCached p cache prior ts).2 prior ts =
      predictCached p cache prior ts := by
  cases h : cacheLookup cache (prior, ts) with
  | some est => simp [predictCached, h]
  | none =>
    cases h2 : predict p prior ts with
    | ok est => simp [predictCached, h, h2, cacheLookup_cons_self]
    | error e => simp [predictCached, h, h2]

/-- The matrix `M` of the recursion on the success path (information.py line
218), written with the total inverse. -/
def MOf {n : ℕ} (F Y : Mat n) : Mat n := npinvTotal Fᵀ * Y * npinvTotal F

/-- The matrix `Sigma` of the recursion on the success path (information.py
line 220). -/
def SigmaOf {n : ℕ} (F Q Y : Mat n) : Mat n :=
  noiseTransitionMatrix n * MOf F Y * noiseTransitionMatrix n + npinvTotal Q

/-- The matrix `Omega` of the recursion on the success path (information.py
line 222). -/
def OmegaOf {n : ℕ} (F Q Y : Mat n) : Mat n :=
  MOf F Y * noiseTransitionMatrix n * npinvTotal (SigmaOf F Q Y)

/-- Which inversion fails first when `predict` runs on matrices `F`, `Q`
with second moment `Y`: the inversions happen in source order `F` (line
218), `Q` (line 220), `Sigma` (line 222). -/
def offendingMatrix {n : ℕ} (F Q _Y : Mat n) : PredictError :=
  if laplaceDet n F = 0 then .singular_F
  else if laplaceDet n Q = 0 then .singular_Q
  else .singular_Sigma

theorem predictCore_error {n : ℕ} (F Q Y : Mat n) (y u : Vec n) (ts : Option ℤ)
    (h : laplaceDet n F = 0 ∨ laplaceDet n Q = 0 ∨ laplaceDet n (SigmaOf F Q Y) = 0) :
    predictCore F Q Y y u ts = .error (offendingMatrix F Q Y) := by
  by_cases hF : laplaceDet n F = 0
  · have hFt : npinv Fᵀ = none := (npinv_eq_none_iff _).2 (by rwa [laplaceDet_transpose])
    simp [predictCore, hFt, offendingMatrix, hF]
  · have hFt : npinv Fᵀ = some (npinvTotal Fᵀ) := by
      unfold npinv
      rw [if_neg (by rwa [laplaceDet_transpose])]
    have hFi : npinv F = some (npinvTotal F) := by
      unfold npinv
      rw [if_neg hF]
    by_cases hQ : laplaceDet n Q = 0
    · have hQn : npinv Q = none := (npinv_eq_none_iff _).2 hQ
      simp [predictCore, hFt, hFi, hQn, offendingMatrix, hF, hQ]
    · have hQi : npinv Q = some (npinvTotal Q) := by
        unfold npinv
        rw [if_neg hQ]
      have hS : laplaceDet n (SigmaOf F Q Y) = 0 := by
        rcases h with h | h | h
        · exact absurd h hF
        · exact absurd h hQ
        · exact h
      have hSn : npinv (noiseTransitionMatrix n * (npinvTotal Fᵀ * Y * npinvTotal F) *
          noiseTransitionMatrix n + npinvTotal Q) = none := by
        apply (npinv_eq_none_iff _).2
        simpa [SigmaOf, MOf] using hS
      simp [predictCore, hFt, hFi, hQi, hSn, offendingMatrix, hF, hQ]

/-- C8: whenever the transition matrix `F`, the process-noise covariance
`Q`, or the auxiliary matrix `Sigma` is singular, `predict` fails with the
singular-matrix error of the offending inversion (numpy's `LinAlgError`
raised at the offending line) and returns no estimate. -/
theorem infoFilter_C8_singular {n : ℕ} (p : InfoFilterPredictor n) (prior : Prior n)
    (ts : Option ℤ) (F Q Y : Mat n)
    (hF : p.transition_model.matrix (predictOverInterval prior ts) = F)
    (hQ : p.transition_model.covar (predictOverInterval prior ts) = Q)
    (hY : priorY prior = Y)
    (h : laplaceDet n F = 0 ∨ laplaceDet n Q = 0 ∨ laplaceDet n (SigmaOf F Q Y) = 0) :
    predict p prior ts = .error (offendingMatrix F Q Y) := by
  have hp : predict p prior ts =
      predictCore (p.transition_model.matrix (predictOverInterval prior ts))
        (p.transition_model.covar (predictOverInterval prior ts)) (priorY prior)
        (priorStateVector prior) p.control_model.control_input ts := rfl
  rw [hp, hF, hQ, hY]
  exact predictCore_error F Q Y _ _ _ h

/-- Embeds `Particle` (particle.py lines 8-27): a state vector, a weight and
an optional parent particle.  The `StateVector` coercion in `__init__` is
the identity at value level and is omitted. -/
inductive Particle where
  | mk (state_vector : List ℚ) (weight : ℚ) (parent : Option Particle)

/-- The `parent` attribute of a particle. -/
def Particle.parent : Particle → Option Particle
  | .mk _ _ p => p

/-- The particle with its `parent` attribute set to `None`, the state in
which `Particle.__init__` leaves a supplied parent. -/
def Particle.withParentNone : Particle → Particle
  | .mk sv w _ => .mk sv w none

/-- Embeds `Particle.__init__` (particle.py lines 18-23) in state-passing
style: returns the constructed particle together with the post-call state
of the caller-supplied `parent` argument.  The source runs
`if parent: parent.parent = None` — a supplied (truthy) parent object is
mutated to have no parent of its own — and then stores the reference. -/
def particleInit (sv : List ℚ) (w : ℚ) (parent : Option Particle) :
    Particle × Option Particle :=
  match parent with
  | none => (.mk sv w none, none)
  | some p => (.mk sv w (some p.withParentNone), some p.withParentNone)

/-- Embeds `MultiModelParticle` (particle.py lines 30-51): like `Particle`
with an assigned dynamic model index. -/
inductive MultiModelParticle where
  | mk (state_vector : List ℚ) (weight : ℚ) (dynamic_model : ℤ)
      (parent : Option MultiModelParticle)

/-- The `parent` attribute of a multi-model particle. -/
def MultiModelParticle.parent : MultiModelParticle → Option MultiModelParticle
  | .mk _ _ _ p => p

/-- The multi-model particle with its `parent` attribute set to `None`. -/
def MultiModelParticle.withParentNone : MultiModelParticle → MultiModelParticle
  | .mk sv w dm _ => .mk sv w dm none

/-- Embeds `MultiModelParticle.__init__` (particle.py lines 41-47) in
state-passing style, with the same `if parent: parent.parent = None`
side effect. -/
def multiModelParticleInit (sv : List ℚ) (w : ℚ) (dm : ℤ)
    (parent : Option MultiModelParticle) :
    MultiModelParticle × Option MultiModelParticle :=
  match parent with
  | none => (.mk sv w dm none, none)
  | some p => (.mk sv w dm (some p.withParentNone), some p.withParentNone)

/-- C10: constructing a `Particle` (or `MultiModelParticle`) with a
non-`None` parent mutates the caller-supplied parent object, setting its
own `parent` attribute to `None`, and stores that reference in the new
particle. -/
theorem particle_C10_parent_mutation :
    (∀ (sv : List ℚ) (w : ℚ) (p : Particle),
      (particleInit sv w (some p)).2 = some p.withParentNone ∧
      p.withParentNone.parent = none ∧
      (particleInit sv w (some p)).1.parent = some p.withParentNone) ∧
    (∀ (sv : List ℚ) (w : ℚ) (dm : ℤ) (q : MultiModelParticle),
      (multiModelParticleInit sv w dm (some q)).2 = some q.withParentNone ∧
      q.withParentNone.parent = none ∧
      (multiModelParticleInit sv w dm (some q)).1.parent = some q.withParentNone) := by
  constructor
  · intro sv w p
    cases p with
    | mk sv' w' par => exact ⟨rfl, rfl, rfl⟩
  · intro sv w dm q
    cases q with
    | mk sv' w' dm' par => exact ⟨rfl, rfl, rfl⟩

/-- A concrete 1-dimensional transition model whose transition matrix is
singular (a zero matrix) and whose process noise is the identity. -/
def tmSingular : TransitionModel 1 :=
  { matrix := fun _ => !![0], covar := fun _ => !![1] }

/-- A predictor over `tmSingular` with the synthesized zero control model. -/
def pSingular : InfoFilterPredictor 1 := mkInfoFilterPredictor tmSingular none

/-- A concrete 1-dimensional information-form prior. -/
def priorOne : Prior 1 := .information !![1] !![1] none

theorem laplaceDet_one_zero : laplaceDet 1 !![(0 : ℚ)] = 0 := by
  simp [laplaceDet]

/-- Witness for C8: at the concrete singular transition matrix `[[0]]`,
`predict` fails with the singular-`F` error. -/
theorem infoFilter_C8_singular_witness :
    laplaceDet 1 !![(0 : ℚ)] = 0 ∧
    offendingMatrix !![(0 : ℚ)] !![(1 : ℚ)] !![(1 : ℚ)] = PredictError.singular_F ∧
    predict pSingular priorOne none = .error (offendingMatrix !![0] !![1] !![1]) := by
  refine ⟨laplaceDet_one_zero, ?_, ?_⟩
  · simp [offendingMatrix, laplaceDet_one_zero]
  · exact infoFilter_C8_singular pSingular priorOne none !![0] !![1] !![1] rfl rfl rfl
      (Or.inl laplaceDet_one_zero)

/-- C7: calling `predict` with a prior whose vector dimension differs from
the transition model's `ndim_state` fails with the dimension-mismatch error
(numpy's shape check on `transition_matrix @ prior.state_vector`, the
failure the spec's taxonomy calls `IncompatibleDimensionsError`), and with
no other outcome. -/
theorem infoFilter_C7_dimension_guard {m n : ℕ} (p : InfoFilterPredictor n)
    (prior : Prior m) (ts : Option ℤ) (h : m ≠ n) :
    predictAny p prior ts = .error PredictError.incompatible_dimensions := by
  simp [predictAny, h]

/-- A concrete 4-dimensional predictor (identity dynamics, identity noise,
synthesized zero control model). -/
def pFour : InfoFilterPredictor 4 :=
  mkInfoFilterPredictor { matrix := fun _ => 1, covar := fun _ => 1 } none

/-- A concrete 2-dimensional covariance-form prior. -/
def priorTwoGauss : Prior 2 := .gaussian !![1; 0] 1 none

/-- Witness for C7: a model expecting dimension 4 rejects a 2-dimensional
prior with the dimension-mismatch error. -/
theorem infoFilter_C7_dimension_guard_witness :
    (2 : ℕ) ≠ 4 ∧
    predictAny pFour priorTwoGauss none = .error PredictError.incompatible_dimensions :=
  ⟨by decide, infoFilter_C7_dimension_guard pFour priorTwoGauss none (by decide)⟩

theorem npinvTotal_eq_inv {n : ℕ} (A : Mat n) : npinvTotal A = A⁻¹ := by
  unfold npinvTotal
  rw [laplaceDet_eq_det, cofAdjugate_eq_adjugate, Matrix.inv_def, Ring.inverse_eq_inv']

theorem npinv_one {n : ℕ} : npinv (1 : Mat n) = some 1 := by
  rw [npinv_eq_inv]
  simp

theorem predictCore_ok {n : ℕ} (F Q Y : Mat n) (y u : Vec n) (ts : Option ℤ)
    (FtInv Finv Qinv SigmaInv : Mat n)
    (h1 : npinv Fᵀ = some FtInv) (h2 : npinv F = some Finv) (h3 : npinv Q = some Qinv)
    (h4 : npinv (noiseTransitionMatrix n * (FtInv * Y * Finv) * noiseTransitionMatrix n
      + Qinv) = some SigmaInv) :
    predictCore F Q Y y u ts = .ok
      { info_vector := (npones n - (FtInv * Y * Finv) * noiseTransitionMatrix n * SigmaInv
          * (noiseTransitionMatrix n)ᵀ) * FtInv * y + Y * u,
        info_matrix := (FtInv * Y * Finv) -
          ((FtInv * Y * Finv) * noiseTransitionMatrix n * SigmaInv) *
            (noiseTransitionMatrix n * (FtInv * Y * Finv) * noiseTransitionMatrix n + Qinv) *
            ((FtInv * Y * Finv) * noiseTransitionMatrix n * SigmaInv)ᵀ,
        timestamp := ts } := by
  simp only [predictCore, h1, h2, h3, h4]

/-- The predicted information-vector formula as claim C1 (spec section 4.1
step 5) states it, written from the words of the spec: `y_pred = (I - Omega
* transpose(G)) * inverse(transpose(F)) * y + Y * u` with `I` the n-by-n
identity matrix, at the `Omega` of the success path of the recursion. -/
def specInfoVector {n : ℕ} (F Q Y : Mat n) (y u : Vec n) : Vec n :=
  ((1 : Mat n) - OmegaOf F Q Y * (noiseTransitionMatrix n)ᵀ) * npinvTotal Fᵀ * y + Y * u

/-- A concrete 2-dimensional transition model: identity dynamics, identity
process noise. -/
def tmTwo : TransitionModel 2 := { matrix := fun _ => 1, covar := fun _ => 1 }

/-- A predictor over `tmTwo` with the synthesized zero control model. -/
def pTwo : InfoFilterPredictor 2 := mkInfoFilterPredictor tmTwo none

/-- A concrete 2-dimensional information-form prior with `y = (1, 0)` and
`Y` the identity. -/
def priorTwoInfo : Prior 2 := .information !![1; 0] 1 none

/-- C1 (divergence evidence): at the prior `y = (1, 0)`, `Y = I` with `F =
I`, `Q = I` and no control, the source's line 229 multiplies by
`np.ones((ndims, ndims))` and `predict` returns the information vector
`(1/2, 1)`, whereas the formula of the claim (and of the class docstring),
which uses the identity matrix `I` in its place, yields `(1/2, 0)`; the two
differ.  The information matrix itself is the correct `(1/2) I`. -/
theorem infoFilter_C1_ones_for_identity :
    predict pTwo priorTwoInfo none = .ok
      { info_vector := !![(1 : ℚ)/2; 1],
        info_matrix := !![(1 : ℚ)/2, 0; 0, (1 : ℚ)/2],
        timestamp := none } ∧
    specInfoVector (1 : Mat 2) 1 1 !![1; 0] 0 = !![(1 : ℚ)/2; 0] ∧
    (!![(1 : ℚ)/2; 1] : Vec 2) ≠ !![(1 : ℚ)/2; 0] := by
  have h1 : npinv ((1 : Mat 2)ᵀ) = some 1 := by
    rw [Matrix.transpose_one]
    exact npinv_one
  have h2 : npinv (1 : Mat 2) = some 1 := npinv_one
  have hdet : ((1 : Mat 2) + 1).det ≠ 0 := by
    rw [← two_smul ℚ (1 : Mat 2), Matrix.det_smul]
    simp
  have hinv : ((1 : Mat 2) + 1)⁻¹ = (2⁻¹ : ℚ) • 1 := by
    apply Matrix.inv_eq_right_inv
    rw [mul_smul_comm, mul_one, ← two_smul ℚ (1 : Mat 2), smul_smul]
    norm_num
  have h4 : npinv (noiseTransitionMatrix 2 * ((1 : Mat 2) * 1 * 1) * noiseTransitionMatrix 2
      + 1) = some ((2⁻¹ : ℚ) • 1) := by
    have hs : noiseTransitionMatrix 2 * ((1 : Mat 2) * 1 * 1) * noiseTransitionMatrix 2 + 1
        = (1 : Mat 2) + 1 := by
      simp [noiseTransitionMatrix]
    rw [hs, npinv_eq_inv, if_neg hdet, hinv]
  have hu : pTwo.control_model.control_input = 0 := by
    simp [pTwo, mkInfoFilterPredictor, zeroControlModel, LinearControlModel.control_input]
  refine ⟨?_, ?_, ?_⟩
  · have hp : predict pTwo priorTwoInfo none =
        predictCore 1 1 1 !![1; 0] pTwo.control_model.control_input none := rfl
    have hcall := predictCore_ok (1 : Mat 2) 1 1 !![1; 0] pTwo.control_model.control_input none
      1 1 1 ((2⁻¹ : ℚ) • 1) h1 h2 h2 h4
    rw [hp, hcall, hu]
    simp only [Except.ok.injEq, InformationStatePrediction.mk.injEq]
    refine ⟨?_, ?_, trivial⟩
    · simp only [noiseTransitionMatrix, Matrix.transpose_one, mul_one, one_mul,
        Matrix.mul_zero, add_zero]
      ext i j
      fin_cases i <;> fin_cases j <;>
        simp [Matrix.mul_apply, Fin.sum_univ_two, npones, Matrix.sub_apply,
          Matrix.smul_apply, Matrix.one_apply] <;> norm_num
    · simp only [noiseTransitionMatrix, Matrix.transpose_smul, Matrix.transpose_one,
        mul_one, one_mul]
      ext i j
      fin_cases i <;> fin_cases j <;>
        simp [Matrix.mul_apply, Fin.sum_univ_two, Matrix.sub_apply, Matrix.add_apply,
          Matrix.smul_apply, Matrix.one_apply] <;> norm_num
  · have hM : MOf (1 : Mat 2) 1 = 1 := by
      simp [MOf, npinvTotal_eq_inv]
    have hS : SigmaOf (1 : Mat 2) 1 1 = (1 : Mat 2) + 1 := by
      simp [SigmaOf, hM, noiseTransitionMatrix, npinvTotal_eq_inv]
    have hO : OmegaOf (1 : Mat 2) 1 1 = (2⁻¹ : ℚ) • 1 := by
      rw [OmegaOf, hM, hS, npinvTotal_eq_inv, hinv]
      simp [noiseTransitionMatrix]
    rw [specInfoVector, hO]
    simp only [noiseTransitionMatrix, Matrix.transpose_one, mul_one, one_mul,
      Matrix.mul_zero, add_zero]
    ext i j
    fin_cases i <;> fin_cases j <;>
      simp [Matrix.mul_apply, Fin.sum_univ_two, Matrix.sub_apply, Matrix.smul_apply,
        Matrix.one_apply, npinvTotal_eq_inv] <;> norm_num
  · intro h
    have h10 : (!![(1 : ℚ)/2; 1] : Vec 2) 1 0 = (!![(1 : ℚ)/2; 0] : Vec 2) 1 0 := by rw [h]
    simp at h10
